import Mathlib

/-!
Shallow embedding of the command-line username authenticator
(`Concurrent Programming/main.cpp` and `Concurrent Programming/core_functions.cpp`).

The program reads the `.user` file line by line with `std::getline`,
keeping a pointer to the line string on every iteration, exports the
final value as the process environment variable `username`, compares the
optional command-line argument against that variable, overwrites the
variable with the compiled-in constant `testuser`, compares again, and
prints a greeting (exit 0) on double match or an error (exit 1) otherwise.

The embedding models the `.user` file as its raw character content
(`List Char`), the optional CLI argument and the `username` environment
variable as `Option String`, and the run of `main` as a pure function
returning `Option RunResult`: `none` marks the undefined behaviour that
the original hits when the file yields no line at all (the
`usernameFromFile` pointer is then read uninitialized).

The `char* usernameFromFile` pointer into the loop string is abstracted
as the value of the last line read: reuse and reallocation of the
underlying `std::string` buffer across iterations are not modelled.
-/

/-- Splits raw file content into the lines that the `getline` loop of
`main` reads: each line is the text up to the next `'\n'` (the delimiter
is consumed and not stored); a final segment without a trailing newline is
still read as a line; a trailing newline does not produce an extra empty
line; empty content produces no line at all.  The accumulator holds the
current line reversed. -/
def linesAux : List Char → List Char → List (List Char)
  | acc, [] => [acc.reverse]
  | acc, c :: rest =>
    if c = '\n' then
      if rest = [] then [acc.reverse] else acc.reverse :: linesAux [] rest
    else linesAux (c :: acc) rest

/-- Lines of the `.user` file content, as produced by the `getline` loop. -/
def linesOf (content : List Char) : List (List Char) :=
  if content = [] then [] else linesAux [] content

/-- The `for (std::string line; getline(fin, line); ) usernameFromFile = &line[0];`
loop of `main.cpp`: the pointer is (re)assigned on every line read, empty
lines included; `none` is the initial, uninitialized pointer. -/
def readLoop : Option String → List (List Char) → Option String
  | ptr, [] => ptr
  | _, line :: rest => readLoop (some (String.mk line)) rest

/-- The value that `main` passes to `setenv("username", usernameFromFile, 1)`:
the last line read from the file, or `none` (uninitialized pointer, undefined
behaviour) when the file yields no line. -/
def storedCredential (content : List Char) : Option String :=
  readLoop none (linesOf content)

/-- The compiled-in constant `const string USERNAME = "testuser";` of `main.cpp`. -/
def USERNAME : String := "testuser"

/-- The message built by `printMessage` in `core_functions.cpp`:
`cout << "Hello " + text + "!" << endl`. -/
def printMessage (text : String) : String := "Hello " ++ text ++ "!"

/-- The `verifyUser` function of `core_functions.cpp`: reads the `username`
environment variable (modelled as `Option String`, `none` when unset, in which
case `getenv` returns a null pointer and the function returns `false`), and
otherwise returns whether the supplied string compares equal to it. -/
def verifyUser (envUsername : Option String) (username : String) : Bool :=
  match envUsername with
  | none => false
  | some usernameEnvVar => username == usernameEnvVar

/-- Observable outcome of a run of `main`: the lines printed to stdout, the
process exit code, and the final value of the `username` environment variable. -/
structure RunResult where
  stdout : List String
  exitCode : Nat
  envUsername : Option String
deriving DecidableEq

/-- The diagnostic printed when the `.user` file cannot be opened. -/
def fileOpenError : String := "Error opening file. Shutting down..."

/-- The diagnostic printed when authentication fails. -/
def mismatchError : String := "Error your usernames don\x27t match check code and .user file."

/-- The supplied username: `argv[1]` when present, otherwise the empty string
(`string username = ""` in `main.cpp`). -/
def suppliedOf (arg : Option String) : String := arg.getD ""

/-- The run of `main` as a pure function.  `initEnv` is the value of the
`username` environment variable when the process starts, `file` is `none` when
the `.user` file cannot be opened and otherwise carries its raw content, and
`arg` is the optional CLI argument.  The result is `none` exactly when the
original program reads the uninitialized `usernameFromFile` pointer. -/
def mainRun (initEnv : Option String) (file : Option (List Char)) (arg : Option String) :
    Option RunResult :=
  match file with
  | none => some ⟨[fileOpenError], 1, initEnv⟩
  | some content =>
    match storedCredential content with
    | none => none
    | some stored =>
      let env1 : Option String := some stored
      let username : String := suppliedOf arg
      let validUser1 : Bool := verifyUser env1 username
      let env2 : Option String := some USERNAME
      let validUser : Bool := validUser1 && verifyUser env2 username
      if validUser then some ⟨[printMessage username], 0, env2⟩
      else some ⟨[mismatchError], 1, env2⟩

/-- Last non-empty line of the file content, as the spec words describe the
stored credential ("only the last non-empty line is used as the stored
credential").  Stated from the spec, for comparison with `storedCredential`,
which is translated from the source loop. -/
def specLastNonEmptyLine (content : List Char) : Option String :=
  (((linesOf content).filter (fun l => !l.isEmpty)).map String.mk).getLast?

example : linesOf "testuser".data = ["testuser".data] := by decide
example : linesOf "testuser\n".data = ["testuser".data] := by decide
example : linesOf "testuser\n\n".data = ["testuser".data, []] := by decide
example : linesOf "a\nb".data = ["a".data, "b".data] := by decide
example : linesOf [] = [] := by decide
example : storedCredential "testuser".data = some "testuser" := by decide
example : storedCredential "testuser\n\n".data = some "" := by decide
example : specLastNonEmptyLine "testuser\n\n".data = some "testuser" := by decide
example : mainRun none (some "testuser".data) (some "testuser") =
    some ⟨[printMessage "testuser"], 0, some USERNAME⟩ := by decide
example : mainRun none (some "testuser\n\n".data) (some "testuser") =
    some ⟨[mismatchError], 1, some USERNAME⟩ := by decide
example : mainRun none (some []) (some "testuser") = none := by decide

section Helpers

/-- Characterization of the read loop: starting from any pointer value, after the
loop the pointer holds the last line read, or keeps its initial value when the
file yields no line. -/
theorem readLoop_eq (acc : Option String) (ls : List (List Char)) :
    readLoop acc ls = if ls = [] then acc else (ls.map String.mk).getLast? := by
  induction ls generalizing acc with
  | nil => simp [readLoop]
  | cons l rest ih =>
    rw [show readLoop acc (l :: rest) = readLoop (some (String.mk l)) rest from rfl, ih]
    cases rest with
    | nil => simp
    | cons l2 rest2 => simp [List.getLast?_cons_cons]

/-- The getline loop yields at least one line from any nonempty suffix. -/
theorem linesAux_ne_nil (cs : List Char) : ∀ acc : List Char, linesAux acc cs ≠ [] := by
  induction cs with
  | nil => intro acc; simp [linesAux]
  | cons c rest ih =>
    intro acc
    simp only [linesAux]
    split_ifs <;> simp [ih]

/-- The file yields no line exactly when its content is empty. -/
theorem linesOf_eq_nil_iff (content : List Char) : linesOf content = [] ↔ content = [] := by
  unfold linesOf
  split_ifs with h <;> simp [h, linesAux_ne_nil]

/-- The `usernameFromFile` pointer stays uninitialized exactly when the content
is empty. -/
theorem storedCredential_eq_none_iff (content : List Char) :
    storedCredential content = none ↔ content = [] := by
  unfold storedCredential
  rw [readLoop_eq]
  split_ifs with h
  · simp [(linesOf_eq_nil_iff content).mp h]
  · have h2 : content ≠ [] := fun hc => h ((linesOf_eq_nil_iff content).mpr hc)
    simp [List.getLast?_eq_none_iff, h, h2]

/-- The first character of every greeting is `H`. -/
theorem head_printMessage (s : String) :
    (printMessage s).data.head? = some 'H' := by
  have h : (printMessage s).data = 'H' :: ("ello ".data ++ s.data ++ "!".data) := by
    show (("Hello " ++ s) ++ "!").data = _
    rw [String.data_append, String.data_append]
    rfl
  rw [h]
  rfl

/-- A greeting never coincides with a diagnostic that starts with `E`. -/
theorem printMessage_ne (s t : String) (ht : t.data.head? = some 'E') :
    printMessage s ≠ t := by
  intro h
  rw [← h, head_printMessage] at ht
  exact absurd ht (by decide)

/-- Reduction of `mainRun` when the file opens and yields a last line. -/
theorem mainRun_some (e : Option String) (content : List Char) (arg : Option String)
    (S : String) (h : storedCredential content = some S) :
    mainRun e (some content) arg =
      if (suppliedOf arg == S) && (suppliedOf arg == USERNAME) then
        some ⟨[printMessage (suppliedOf arg)], 0, some USERNAME⟩
      else some ⟨[mismatchError], 1, some USERNAME⟩ := by
  simp only [mainRun]
  rw [h]
  rfl

end Helpers

/-- C1: for every stored credential S read from the `.user` file and every
supplied credential U (the CLI argument, or the empty string when absent), the
program succeeds — prints the greeting and exits 0 — if and only if U equals S
and U equals the compiled-in constant `testuser`; on any mismatch it prints the
error diagnostic and exits 1. -/
theorem main_success_iff (e : Option String) (content : List Char) (arg : Option String)
    (U S : String) (hS : storedCredential content = some S) (hU : suppliedOf arg = U) :
    ((∃ r : RunResult, mainRun e (some content) arg = some r ∧
        r.stdout = [printMessage U] ∧ r.exitCode = 0) ↔ (U = S ∧ U = USERNAME)) ∧
    (¬ (U = S ∧ U = USERNAME) →
      mainRun e (some content) arg = some ⟨[mismatchError], 1, some USERNAME⟩) := by
  rw [mainRun_some e content arg S hS, hU]
  by_cases hc : U = S ∧ U = USERNAME
  · have hb : (U == S && U == USERNAME) = true := by
      simp only [Bool.and_eq_true, beq_iff_eq]
      exact hc
    rw [hb]
    refine ⟨⟨fun _ => hc, fun _ => ⟨⟨[printMessage U], 0, some USERNAME⟩, by simp⟩⟩,
      fun hn => absurd hc hn⟩
  · have hb : (U == S && U == USERNAME) = false := by
      rcases not_and_or.mp hc with h | h <;> simp [h]
    rw [hb]
    refine ⟨⟨?_, fun h => absurd h hc⟩, fun _ => by simp⟩
    rintro ⟨r, hr, hstd, hex⟩
    simp at hr
    subst hr
    simp at hex

/-- Witness for C1 at the stored credential `testuser` and CLI argument
`testuser`. -/
theorem main_success_iff_witness :
    storedCredential ("testuser".data) = some "testuser" ∧
    suppliedOf (some "testuser") = "testuser" ∧
    (((∃ r : RunResult, mainRun none (some ("testuser".data)) (some "testuser") = some r ∧
        r.stdout = [printMessage "testuser"] ∧ r.exitCode = 0) ↔
      ("testuser" = "testuser" ∧ "testuser" = USERNAME)) ∧
    (¬ ("testuser" = "testuser" ∧ "testuser" = USERNAME) →
      mainRun none (some ("testuser".data)) (some "testuser") =
        some ⟨[mismatchError], 1, some USERNAME⟩)) :=
  ⟨by decide, by decide, main_success_iff none ("testuser".data) (some "testuser")
    "testuser" "testuser" (by decide) (by decide)⟩

/-- C2 counterexample: the file content `"testuser\n\n"` has last non-empty
line `testuser`, yet the loop leaves the empty second line as the stored
credential, so the run with CLI argument `testuser` (which equals the last
non-empty line and the constant) fails with exit code 1. -/
theorem storedCredential_ne_lastNonEmpty :
    specLastNonEmptyLine ("testuser\n\n".data) = some "testuser" ∧
    storedCredential ("testuser\n\n".data) = some "" ∧
    ("" : String) ≠ "testuser" ∧
    mainRun none (some ("testuser\n\n".data)) (some "testuser") =
      some ⟨[mismatchError], 1, some USERNAME⟩ := by decide

/-- C2 amended: the stored credential used in the comparison is the last line
the getline loop reads from the file, whether or not that line is empty; an
empty trailing line is used as the credential whenever it is the last line
read. -/
theorem storedCredential_eq_lastLine (content : List Char) :
    storedCredential content = ((linesOf content).map String.mk).getLast? := by
  unfold storedCredential
  rw [readLoop_eq]
  split_ifs with h
  · simp [h]
  · rfl

/-- C3: when the `.user` file cannot be opened, for every initial environment
and every CLI argument the program prints exactly the file-open diagnostic and
exits with status 1, the environment variable is never written, and no greeting
is printed (a greeting always starts with `H`, the diagnostic with `E`). -/
theorem fileOpen_failure (e : Option String) (arg : Option String) :
    mainRun e none arg = some ⟨[fileOpenError], 1, e⟩ ∧
    ∀ s : String, printMessage s ≠ fileOpenError :=
  ⟨rfl, fun s => printMessage_ne s fileOpenError rfl⟩

/-- C4: the run of `main` on an opened file is undefined (the uninitialized
`usernameFromFile` pointer is read) exactly when the file content yields no
line, i.e. is empty; on any nonempty content the run is a well-defined total
function. -/
theorem main_undefined_iff_empty (e : Option String) (content : List Char)
    (arg : Option String) :
    mainRun e (some content) arg = none ↔ content = [] := by
  cases h : storedCredential content with
  | none =>
    have hc := (storedCredential_eq_none_iff content).mp h
    subst hc
    simp [mainRun, h]
  | some s =>
    rw [mainRun_some e content arg s h]
    constructor
    · intro hx
      split_ifs at hx
    · intro hc
      have h2 : storedCredential content = none :=
        (storedCredential_eq_none_iff content).mpr hc
      rw [h] at h2
      exact absurd h2 (by simp)

/-- C5: `verifyUser` with the reference string held in the `username`
environment variable returns true exactly when the supplied string and the
reference are byte-for-byte identical (their character data coincide). -/
theorem verifyUser_eq_iff (reference username : String) :
    verifyUser (some reference) username = true ↔ username.data = reference.data := by
  simp [verifyUser, String.ext_iff]

/-- C9: when the `username` environment variable is unset (`getenv` returns a
null pointer), `verifyUser` returns false for every supplied string instead of
dereferencing the null pointer. -/
theorem verifyUser_unset_env (username : String) : verifyUser none username = false := rfl

/-- C6: every run that terminates normally exits with status 0 or status 1, and
the status is 0 exactly when a greeting was printed (success); on any failure —
missing file or mismatch — it is 1. -/
theorem exitCode_zero_or_one (e : Option String) (file : Option (List Char))
    (arg : Option String) (r : RunResult) (h : mainRun e file arg = some r) :
    (r.exitCode = 0 ∨ r.exitCode = 1) ∧
    (r.exitCode = 0 ↔ ∃ s : String, r.stdout = [printMessage s]) := by
  cases file with
  | none =>
    simp only [mainRun, Option.some.injEq] at h
    subst h
    refine ⟨Or.inr rfl, ?_⟩
    constructor
    · intro h0
      exact absurd h0 one_ne_zero
    · rintro ⟨s, hs⟩
      simp only [List.cons.injEq, and_true] at hs
      exact absurd hs.symm (printMessage_ne s fileOpenError rfl)
  | some content =>
    cases hst : storedCredential content with
    | none =>
      simp only [mainRun, hst] at h
      exact Option.noConfusion h
    | some S =>
      rw [mainRun_some e content arg S hst] at h
      split_ifs at h with hb
      · simp only [Option.some.injEq] at h
        subst h
        refine ⟨Or.inl rfl, ?_⟩
        exact ⟨fun _ => ⟨suppliedOf arg, rfl⟩, fun _ => rfl⟩
      · simp only [Option.some.injEq] at h
        subst h
        refine ⟨Or.inr rfl, ?_⟩
        constructor
        · intro h0
          exact absurd h0 one_ne_zero
        · rintro ⟨s, hs⟩
          simp only [List.cons.injEq, and_true] at hs
          exact absurd hs.symm (printMessage_ne s mismatchError rfl)

/-- Witness for C6 at a run with a missing file. -/
theorem exitCode_zero_or_one_witness :
    mainRun (some "abc") none none = some ⟨[fileOpenError], 1, some "abc"⟩ ∧
    (((⟨[fileOpenError], 1, some "abc"⟩ : RunResult).exitCode = 0 ∨
      (⟨[fileOpenError], 1, some "abc"⟩ : RunResult).exitCode = 1) ∧
     ((⟨[fileOpenError], 1, some "abc"⟩ : RunResult).exitCode = 0 ↔
      ∃ s : String, (⟨[fileOpenError], 1, some "abc"⟩ : RunResult).stdout =
        [printMessage s])) :=
  ⟨rfl, exitCode_zero_or_one (some "abc") none none ⟨[fileOpenError], 1, some "abc"⟩ rfl⟩

/-- C7: the greeting is exactly the string `"Hello " ++ name ++ "!"`, and on a
successful run (exit code 0) the single stdout line is exactly
`"Hello " ++ supplied ++ "!"` for the supplied username (which then equals
`testuser`). -/
theorem success_greeting (e : Option String) (file : Option (List Char))
    (arg : Option String) (r : RunResult) (h : mainRun e file arg = some r)
    (h0 : r.exitCode = 0) :
    printMessage (suppliedOf arg) = "Hello " ++ suppliedOf arg ++ "!" ∧
    r.stdout = ["Hello " ++ suppliedOf arg ++ "!"] ∧
    suppliedOf arg = USERNAME := by
  refine ⟨rfl, ?_⟩
  cases file with
  | none =>
    simp only [mainRun, Option.some.injEq] at h
    subst h
    exact absurd h0 one_ne_zero
  | some content =>
    cases hst : storedCredential content with
    | none =>
      simp only [mainRun, hst] at h
      exact Option.noConfusion h
    | some S =>
      rw [mainRun_some e content arg S hst] at h
      split_ifs at h with hb
      · simp only [Option.some.injEq] at h
        subst h
        refine ⟨rfl, ?_⟩
        simp only [Bool.and_eq_true, beq_iff_eq] at hb
        exact hb.2
      · simp only [Option.some.injEq] at h
        subst h
        exact absurd h0 one_ne_zero

/-- Witness for C7 at the successful run on file content `testuser` and CLI
argument `testuser`. -/
theorem success_greeting_witness :
    mainRun none (some ("testuser".data)) (some "testuser") =
      some ⟨[printMessage "testuser"], 0, some USERNAME⟩ ∧
    (⟨[printMessage "testuser"], 0, some USERNAME⟩ : RunResult).exitCode = 0 ∧
    (printMessage (suppliedOf (some "testuser")) =
        "Hello " ++ suppliedOf (some "testuser") ++ "!" ∧
      (⟨[printMessage "testuser"], 0, some USERNAME⟩ : RunResult).stdout =
        ["Hello " ++ suppliedOf (some "testuser") ++ "!"] ∧
      suppliedOf (some "testuser") = USERNAME) :=
  ⟨by decide, by decide,
    success_greeting none (some ("testuser".data)) (some "testuser")
      ⟨[printMessage "testuser"], 0, some USERNAME⟩ (by decide) (by decide)⟩

/-- C8: the run is a deterministic function of the file content and the CLI
argument: the observable behaviour (stdout and exit code, including presence of
undefined behaviour) does not depend on the initial environment, so two runs
with identical file and argument inputs produce identical output and exit
code. -/
theorem run_deterministic (e1 e2 : Option String) (file : Option (List Char))
    (arg : Option String) :
    (mainRun e1 file arg).map (fun r => (r.stdout, r.exitCode)) =
      (mainRun e2 file arg).map (fun r => (r.stdout, r.exitCode)) := by
  cases file with
  | none => rfl
  | some content => rfl

/-- C10: whenever the `.user` file opens and yields a line, the second `setenv`
runs unconditionally — also when the file-based comparison already failed — so
the final value of the `username` environment variable is the constant
`testuser` regardless of the authentication outcome. -/
theorem final_env_testuser (e : Option String) (content : List Char)
    (arg : Option String) (r : RunResult) (h : mainRun e (some content) arg = some r) :
    r.envUsername = some USERNAME := by
  cases hst : storedCredential content with
  | none =>
    simp only [mainRun, hst] at h
    exact Option.noConfusion h
  | some S =>
    rw [mainRun_some e content arg S hst] at h
    split_ifs at h with hb
    · simp only [Option.some.injEq] at h
      subst h
      rfl
    · simp only [Option.some.injEq] at h
      subst h
      rfl

/-- Witness for C10 at a failing run: file content `alice`, argument `bob`. -/
theorem final_env_testuser_witness :
    mainRun none (some ("alice".data)) (some "bob") =
      some ⟨[mismatchError], 1, some USERNAME⟩ ∧
    (⟨[mismatchError], 1, some USERNAME⟩ : RunResult).envUsername = some USERNAME :=
  ⟨by decide, final_env_testuser none ("alice".data) (some "bob")
    ⟨[mismatchError], 1, some USERNAME⟩ (by decide)⟩
